import Mathlib

/-!
Verification of the tanuki-bot shift-tracking core against its specification.

The development shallowly embeds the storage backends and the profit
calculator of the repository:

* `src/sheet.py` — `GoogleSheetsManager`: `_calculate_hours`,
  `_calculate_profit`, `add_shift`, `update_value`, `get_profit`.
* `src/database.py` — `DatabaseManager` over SQLite: `add_shift`,
  `update_value`, `get_profit`, `get_shifts_in_period`, `get_statistics`.
* `src/main.py` — the profit-tier selection of `process_profit_date`.

Numeric values (SQLite REAL / Python float) are modelled as exact
rationals `ℚ`; strings are Lean `String`s.  The SQLite `shifts` table is a
list of rows, the spreadsheet a list of rows of cells.  Python's
`float(...)` string conversion is modelled for the plain decimal forms
(optional sign, digits, optional fractional part); exponent/inf/nan
spellings do not occur in this program's inputs.
-/

namespace TanukiBot

/-! ### String and number parsing helpers -/

/-- Splits a character list at every occurrence of `sep`, like Python's
`str.split(sep)` (and the delimiter handling of `strptime` format
directives used below). -/
def splitOnChar (sep : Char) : List Char → List (List Char)
  | [] => [[]]
  | c :: cs =>
    if c = sep then [] :: splitOnChar sep cs
    else
      match splitOnChar sep cs with
      | [] => [[c]]
      | g :: gs => (c :: g) :: gs

/-- Value of a digit string, most significant first. -/
def digitsToNat (cs : List Char) : ℕ :=
  cs.foldl (fun a c => 10 * a + (c.toNat - 48)) 0

/-- Component check for `strptime` two-digit fields (`%H`, `%M`, `%d`,
`%m`): one or two digit characters. -/
def twoDigitField (cs : List Char) : Bool :=
  decide (cs ≠ []) && decide (cs.length ≤ 2) && cs.all Char.isDigit

/-- Parses `"HH:MM"` as `datetime.strptime(s, "%H:%M")` does, returning the
time of day in minutes.  Hours must be 0–23 and minutes 0–59; each field is
one or two digits; nothing else may surround them. -/
def parseTimeParts : List (List Char) → Option ℕ
  | [hs, ms] =>
    if twoDigitField hs ∧ twoDigitField ms then
      let h := digitsToNat hs
      let m := digitsToNat ms
      if h ≤ 23 ∧ m ≤ 59 then some (60 * h + m) else none
    else none
  | _ => none

/-- Embeds `datetime.strptime(s, "%H:%M")`, giving minutes past midnight. -/
def parseTime (s : String) : Option ℕ :=
  parseTimeParts (splitOnChar ':' s.data)

/-- Gregorian leap-year test, as used by Python's calendar validation. -/
def isLeap (y : ℕ) : Bool :=
  (y % 4 == 0 && y % 100 != 0) || y % 400 == 0

/-- Number of days in month `m` of year `y`. -/
def daysInMonth (m y : ℕ) : ℕ :=
  if m = 2 then (if isLeap y then 29 else 28)
  else if m = 4 ∨ m = 6 ∨ m = 9 ∨ m = 11 then 30
  else 31

/-- Parses `"DD.MM.YYYY"` as `datetime.strptime(s, "%d.%m.%Y").date()`
does, returning `(day, month, year)`; the day is validated against the
month's length. -/
def parseDateParts : List (List Char) → Option (ℕ × ℕ × ℕ)
  | [ds, ms, ys] =>
    if twoDigitField ds ∧ twoDigitField ms ∧
        decide (ys ≠ []) ∧ decide (ys.length ≤ 4) ∧ ys.all Char.isDigit then
      let d := digitsToNat ds
      let m := digitsToNat ms
      let y := digitsToNat ys
      if 1 ≤ m ∧ m ≤ 12 ∧ 1 ≤ d ∧ d ≤ daysInMonth m y then some (d, m, y)
      else none
    else none
  | _ => none

/-- Embeds `datetime.strptime(s, "%d.%m.%Y").date()`. -/
def parseDate (s : String) : Option (ℕ × ℕ × ℕ) :=
  parseDateParts (splitOnChar '.' s.data)

/-- The digit character for `n % 10`. -/
def digitChar (n : ℕ) : Char :=
  Char.ofNat (48 + n % 10)

/-- Zero-padded two-digit rendering, as `strftime` `%d` / `%m`. -/
def pad2 (n : ℕ) : String :=
  String.mk [digitChar (n / 10), digitChar n]

/-- Zero-padded four-digit rendering, as `strftime` `%Y` for years below
10000. -/
def pad4 (n : ℕ) : String :=
  String.mk [digitChar (n / 1000), digitChar (n / 100), digitChar (n / 10), digitChar n]

/-- Embeds `date_obj.strftime("%d.%m.%Y")`. -/
def formatDate (dmy : ℕ × ℕ × ℕ) : String :=
  pad2 dmy.1 ++ "." ++ pad2 dmy.2.1 ++ "." ++ pad4 dmy.2.2

/-- Embeds `str.replace(',', '.')` (single-character pattern). -/
def normComma : List Char → List Char
  | [] => []
  | c :: cs => (if c = ',' then '.' else c) :: normComma cs

/-- Unsigned decimal accepted by Python's `float`: digits with an optional
point, at least one digit present (`"5"`, `"5."`, `".5"`, `"5.25"`). -/
def parseUnsigned (cs : List Char) : Option ℚ :=
  match splitOnChar '.' cs with
  | [ip] =>
    if decide (ip ≠ []) ∧ ip.all Char.isDigit then some (digitsToNat ip : ℚ)
    else none
  | [ip, fp] =>
    if (decide (ip ≠ []) ∨ decide (fp ≠ [])) ∧ ip.all Char.isDigit ∧ fp.all Char.isDigit then
      some ((digitsToNat ip : ℚ) + (digitsToNat fp : ℚ) / (10 : ℚ) ^ fp.length)
    else none
  | _ => none

/-- Signed decimal accepted by Python's `float`. -/
def parseFloatChars : List Char → Option ℚ
  | '-' :: rest => (parseUnsigned rest).map (fun q => -q)
  | '+' :: rest => parseUnsigned rest
  | cs => parseUnsigned cs

/-- Embeds Python's `float(s)` on the decimal spellings this program
produces and consumes; malformed input is `none` (Python raises
`ValueError`, which every caller catches). -/
def parseFloat (s : String) : Option ℚ :=
  parseFloatChars s.data

/-- Embeds `float(str(v).replace(',', '.')) if v else 0` from
`GoogleSheetsManager._calculate_profit`: a falsy (empty) cell is 0, any
other cell is comma-normalized and converted. -/
def moneyVal (s : String) : Option ℚ :=
  if s = "" then some 0 else parseFloat (String.mk (normComma s.data))

/-! ### The profit calculator (`src/sheet.py`) -/

/-- Embeds `GoogleSheetsManager._calculate_hours`: parse both times as
`%H:%M`; if the end is before the start, add one day; return the duration
in fractional hours.  A parse failure is caught and yields 0. -/
def calcHours (st en : String) : ℚ :=
  match parseTime st, parseTime en with
  | some s, some e => ((((if e < s then e + 1440 else e) - s : ℕ) : ℚ)) / 60
  | _, _ => 0

/-- The profit formula of `GoogleSheetsManager._calculate_profit`:
`(hours * hourly_rate) + tips + (revenue * revenue_percentage)` with
`hourly_rate = 220` and `revenue_percentage = 0.015 = 3/200`. -/
def shiftProfit (hours rev tips : ℚ) : ℚ :=
  hours * 220 + tips + rev * (3 / 200)

/-- Embeds `GoogleSheetsManager._calculate_profit`: hours from
`_calculate_hours`, revenue/tips converted by `moneyVal`; a conversion
failure is caught and yields 0. -/
def calcProfit (st en rev tips : String) : ℚ :=
  match moneyVal rev, moneyVal tips with
  | some r, some t => shiftProfit (calcHours st en) r t
  | _, _ => 0

/-! ### The SQLite backend (`src/database.py`) -/

/-- One row of the `shifts` table: `date TEXT UNIQUE`, `start_time TEXT`,
`end_time TEXT`, `revenue REAL DEFAULT 0`, `tips REAL DEFAULT 0` (the
`id`/timestamp bookkeeping columns carry no observable content). -/
structure DBRow where
  date : String
  start_time : String
  end_time : String
  revenue : ℚ
  tips : ℚ
deriving DecidableEq

/-- Embeds `DatabaseManager.add_shift`: `INSERT OR REPLACE INTO shifts
(date, start_time, end_time, updated_at) VALUES (?, ?, ?, ...)`.  On a
`date` conflict SQLite deletes the old row and inserts the fresh one, so
`revenue` and `tips` take their column defaults (0) again.  Returns the
new table and the boolean result. -/
def dbAddShift (s : List DBRow) (d st en : String) : List DBRow × Bool :=
  (s.filter (fun r => !(decide (r.date = d))) ++ [⟨d, st, en, 0, 0⟩], true)

/-- The columns reachable through `update_value`'s `field_mapping`. -/
inductive DBField
  | start_time
  | end_time
  | revenue
  | tips
deriving DecidableEq

/-- Embeds the `field_mapping` dictionary of `DatabaseManager.update_value`
(the code first lowercases the field name; the four keys are already
lowercase). -/
def fieldMapping (f : String) : Option DBField :=
  if f = "начало" then some .start_time
  else if f = "конец" then some .end_time
  else if f = "выручка" then some .revenue
  else if f = "чай" then some .tips
  else none

/-- Embeds `DatabaseManager.update_value`: unknown field fails; for
`revenue`/`tips` the value must convert by `float(value)` (no comma
normalization here) or the call fails before touching the table; the SQL
`UPDATE ... WHERE date = ?` then rewrites the matching rows, and a zero
rowcount is reported as failure. -/
def dbUpdateValue (s : List DBRow) (d f v : String) : List DBRow × Bool :=
  match fieldMapping f with
  | none => (s, false)
  | some fl =>
    match fl with
    | .revenue =>
      match parseFloat v with
      | none => (s, false)
      | some q =>
        if s.any (fun r => decide (r.date = d)) then
          (s.map (fun r => if r.date = d then { r with revenue := q } else r), true)
        else (s, false)
    | .tips =>
      match parseFloat v with
      | none => (s, false)
      | some q =>
        if s.any (fun r => decide (r.date = d)) then
          (s.map (fun r => if r.date = d then { r with tips := q } else r), true)
        else (s, false)
    | .start_time =>
      if s.any (fun r => decide (r.date = d)) then
        (s.map (fun r => if r.date = d then { r with start_time := v } else r), true)
      else (s, false)
    | .end_time =>
      if s.any (fun r => decide (r.date = d)) then
        (s.map (fun r => if r.date = d then { r with end_time := v } else r), true)
      else (s, false)

/-- Embeds `DatabaseManager.get_profit`: `SELECT revenue, tips FROM shifts
WHERE date = ?`; no row gives `None`, otherwise the value returned (and
then stringified) is `(revenue or 0) + (tips or 0)` — the two columns are
simply added; the hours-based formula is not used on this backend. -/
def dbGetProfit (s : List DBRow) (d : String) : Option ℚ :=
  (s.find? (fun r => decide (r.date = d))).map (fun r => r.revenue + r.tips)

/-- SQLite `BETWEEN` / `ORDER BY` comparison on TEXT columns: bytewise
(BINARY collation) order of the stored strings.  On the ASCII date strings
of this schema that is lexicographic order of the code points. -/
def lexLt : List Char → List Char → Bool
  | [], [] => false
  | [], _ :: _ => true
  | _ :: _, [] => false
  | a :: as, b :: bs =>
    if a.val < b.val then true
    else if b.val < a.val then false
    else lexLt as bs

/-- Non-strict bytewise string order, `a <= b` in SQLite BINARY collation. -/
def dateLeB (a b : String) : Bool :=
  decide (a = b) || lexLt a.data b.data

/-- The rows selected by `WHERE date BETWEEN ? AND ?` (shared by
`get_shifts_in_period` and `get_statistics`). -/
def dbMatch (s : List DBRow) (a b : String) : List DBRow :=
  s.filter (fun r => dateLeB a r.date && dateLeB r.date b)

/-- Insertion step for `ORDER BY date` (string order, unique keys). -/
def insertByDate (r : DBRow) : List DBRow → List DBRow
  | [] => [r]
  | x :: xs => if dateLeB r.date x.date then r :: x :: xs else x :: insertByDate r xs

/-- Sorting by the stored date string, as `ORDER BY date` does. -/
def sortByDate (l : List DBRow) : List DBRow :=
  l.foldr insertByDate []

/-- Embeds `DatabaseManager.get_shifts_in_period`: the rows with
`date BETWEEN ? AND ?` (string comparison), ordered by the date string;
`revenue`/`tips` are never NULL under this schema, so the `or 0` defaults
are identities. -/
def dbGetShiftsInPeriod (s : List DBRow) (a b : String) : List DBRow :=
  sortByDate (dbMatch s a b)

/-- The dictionary built by `DatabaseManager.get_statistics`. -/
structure ShiftStats where
  shift_count : ℕ
  total_revenue : ℚ
  total_tips : ℚ
  total_profit : ℚ
  avg_revenue : ℚ
  avg_tips : ℚ
  avg_profit : ℚ
deriving DecidableEq

/-- Sum of the `revenue` column over a row list. -/
def sumRev (l : List DBRow) : ℚ := (l.map (fun r => r.revenue)).sum

/-- Sum of the `tips` column over a row list. -/
def sumTips (l : List DBRow) : ℚ := (l.map (fun r => r.tips)).sum

/-- Embeds `DatabaseManager.get_statistics`: `COUNT/SUM/AVG` over the rows
with `date BETWEEN ? AND ?`; a zero count yields `None`; `total_profit`
is `total_revenue + total_tips` and `avg_profit` is
`avg_revenue + avg_tips` (SQL `AVG` is `SUM/COUNT`). -/
def dbGetStatistics (s : List DBRow) (a b : String) : Option ShiftStats :=
  let rows := dbMatch s a b
  if rows.length = 0 then none
  else
    some
      { shift_count := rows.length
        total_revenue := sumRev rows
        total_tips := sumTips rows
        total_profit := sumRev rows + sumTips rows
        avg_revenue := sumRev rows / rows.length
        avg_tips := sumTips rows / rows.length
        avg_profit := sumRev rows / rows.length + sumTips rows / rows.length }

/-- Calendar (not bytewise) order on two `DD.MM.YYYY` strings: compare the
parsed year, then month, then day.  Used only to state what a calendar
inclusive range would select. -/
def calDateLe (a b : String) : Bool :=
  match parseDate a, parseDate b with
  | some (d1, m1, y1), some (d2, m2, y2) =>
    decide (y1 < y2 ∨ (y1 = y2 ∧ (m1 < m2 ∨ (m1 = m2 ∧ d1 ≤ d2))))
  | _, _ => false

/-! ### The Google-Sheets backend (`src/sheet.py`) -/

/-- One spreadsheet row of the `Смены` worksheet: columns A–G are date,
start, end, revenue, tips, hours, profit.  Text cells are strings with
`""` for an empty cell (gspread's falsy `cell.value`); the two derived
numeric cells written by the code are modelled as their numeric value or
`none` when empty. -/
structure SheetRow where
  date : String
  startCell : String
  endCell : String
  revenueCell : String
  tipsCell : String
  hoursCell : Option ℚ
  profitCell : Option ℚ
deriving DecidableEq

/-- Embeds the `cell.value if cell.value else dflt` defaulting idiom. -/
def cellOr (dflt c : String) : String :=
  if c = "" then dflt else c

/-- Rewrites the first element satisfying `p` by `f`, leaving the rest of
the list unchanged — a `worksheet.update` on the row that
`worksheet.find` located. -/
def updFirst (p : α → Bool) (f : α → α) : List α → List α
  | [] => []
  | x :: xs => if p x then f x :: xs else x :: updFirst p f xs

/-- Embeds `worksheet.find(formatted_date)`: the first row keyed by the
formatted date string. -/
def sheetFind (ws : List SheetRow) (fd : String) : Option SheetRow :=
  ws.find? (fun r => decide (r.date = fd))

/-- Embeds `GoogleSheetsManager.add_shift`: validate the date and both
times (a `ValueError` returns `False`); if a row for the formatted date
exists, write `start`/`end` into columns B–C, reread revenue/tips
(defaulting empty cells to `"0"`), and write the recomputed profit into
column G; otherwise append `[date, start, end, '', '', profit]` — six
cells, so the freshly computed profit lands in column F (the hours
column) and G stays empty. -/
def sheetAddShift (ws : List SheetRow) (d st en : String) : List SheetRow × Bool :=
  match parseDate d, parseTime st, parseTime en with
  | some pd, some _, some _ =>
    let fd := formatDate pd
    match sheetFind ws fd with
    | some r =>
      let profit := calcProfit st en (cellOr "0" r.revenueCell) (cellOr "0" r.tipsCell)
      (updFirst (fun x => decide (x.date = fd))
        (fun x => { x with startCell := st, endCell := en, profitCell := some profit }) ws,
       true)
    | none =>
      (ws ++ [⟨fd, st, en, "", "", some (calcProfit st en "" ""), none⟩], true)
  | _, _, _ => (ws, false)

/-- Embeds `GoogleSheetsManager.update_value`.  The function's
`column_mapping` literal is malformed source (`'часы': F` references an
undefined name and `'Прибыль' G` lacks its colon), so the body can never
execute past the mapping: at best constructing it raises and the
enclosing handler returns `False` before any write (as written the module
does not even load).  Every call therefore fails without mutating the
sheet. -/
def sheetUpdateValue (ws : List SheetRow) (_d _field _v : String) : List SheetRow × Bool :=
  (ws, false)

/-- Embeds `GoogleSheetsManager.get_profit`: validate the date, look the
row up (`None` when absent), default empty time cells to `"00:00"` and
empty money cells to `"0"`, recompute the profit with
`_calculate_profit`, rewrite the profit cell when it drifted by more than
0.01, and return the computed profit (the code returns its string form). -/
def sheetGetProfit (ws : List SheetRow) (d : String) : List SheetRow × Option ℚ :=
  match parseDate d with
  | none => (ws, none)
  | some pd =>
    let fd := formatDate pd
    match sheetFind ws fd with
    | none => (ws, none)
    | some r =>
      let p := calcProfit (cellOr "00:00" r.startCell) (cellOr "00:00" r.endCell)
        (cellOr "0" r.revenueCell) (cellOr "0" r.tipsCell)
      let existing : ℚ := r.profitCell.getD 0
      let ws' :=
        if 1 / 100 < |existing - p| then
          updFirst (fun x => decide (x.date = fd)) (fun x => { x with profitCell := some p }) ws
        else ws
      (ws', some p)

/-! ### The profit-tier selection (`src/main.py`) -/

/-- Embeds the message-tier choice of `process_profit_date`: tier 1 for
`profit < 4000`, tier 2 for `4000 <= profit <= 6000`, tier 3 otherwise. -/
def selectTier (p : ℚ) : ℕ :=
  if p < 4000 then 1
  else if 4000 ≤ p ∧ p ≤ 6000 then 2
  else 3

/-! ### Helper lemmas -/

theorem parseTimeParts_lt {ps : List (List Char)} {v : ℕ}
    (h : parseTimeParts ps = some v) : v < 1440 := by
  match ps with
  | [] => simp [parseTimeParts] at h
  | [_] => simp [parseTimeParts] at h
  | [hs, ms] =>
    simp only [parseTimeParts] at h
    split_ifs at h with h1 h2
    · obtain ⟨hh, hm⟩ := h2
      simp only [Option.some.injEq] at h
      omega
  | _ :: _ :: _ :: _ => simp [parseTimeParts] at h

theorem parseTime_lt {s : String} {v : ℕ} (h : parseTime s = some v) : v < 1440 :=
  parseTimeParts_lt h

theorem find?_updFirst {α : Type} {p : α → Bool} {f : α → α} {l : List α} {r : α}
    (hf : ∀ a, p a = true → p (f a) = true)
    (h : l.find? p = some r) : (updFirst p f l).find? p = some (f r) := by
  induction l with
  | nil => simp [List.find?] at h
  | cons x xs ih =>
    cases hx : p x with
    | true =>
      simp only [List.find?, hx] at h
      obtain rfl : x = r := Option.some.inj h
      simp [updFirst, hx, List.find?, hf x hx]
    | false =>
      simp only [List.find?, hx] at h
      simp [updFirst, hx, List.find?, ih h]

theorem find?_append_single {α : Type} {p : α → Bool} {l : List α} {x : α}
    (hl : l.find? p = none) (hx : p x = true) : (l ++ [x]).find? p = some x := by
  induction l with
  | nil => simp [List.find?, hx]
  | cons a as ih =>
    cases hpa : p a with
    | true => simp [List.find?, hpa] at hl
    | false =>
      simp only [List.find?, hpa] at hl
      simpa [List.find?, hpa] using ih hl

theorem find?_filter_not {α : Type} (p : α → Bool) (l : List α) :
    (l.filter (fun a => !(p a))).find? p = none := by
  induction l with
  | nil => simp
  | cons a as ih =>
    cases hpa : p a with
    | true => simp [List.filter, hpa, ih]
    | false => simp [List.filter, List.find?, hpa, ih]

theorem calcHours_of_parse {st en : String} {s e : ℕ}
    (hs : parseTime st = some s) (he : parseTime en = some e) :
    calcHours st en = (((if e < s then e + 1440 else e) - s : ℕ) : ℚ) / 60 := by
  unfold calcHours
  rw [hs, he]

theorem calcHours_le {st en : String} {s e : ℕ}
    (hs : parseTime st = some s) (he : parseTime en = some e) (hle : s ≤ e) :
    calcHours st en = (e : ℚ) / 60 - (s : ℚ) / 60 := by
  rw [calcHours_of_parse hs he, if_neg (Nat.not_lt.mpr hle), Nat.cast_sub hle]
  ring

theorem calcHours_wrap {st en : String} {s e : ℕ}
    (hs : parseTime st = some s) (he : parseTime en = some e) (hlt : e < s) :
    calcHours st en = ((e : ℚ) + 1440) / 60 - (s : ℚ) / 60 := by
  have hb : s < 1440 := parseTime_lt hs
  have hle : s ≤ e + 1440 := by omega
  rw [calcHours_of_parse hs he, if_pos hlt, Nat.cast_sub hle]
  push_cast
  ring

theorem calcProfit_of_parse {st en rev tips : String} {r t : ℚ}
    (hr : moneyVal rev = some r) (ht : moneyVal tips = some t) :
    calcProfit st en rev tips = shiftProfit (calcHours st en) r t := by
  unfold calcProfit
  rw [hr, ht]

/-! ### Claim theorems -/

/-- C4: for all valid `HH:MM` times, if `end >= start` then
`hours(start, end)` is `end - start` in fractional hours, and if
`end < start` it is `(end + 24h) - start`. -/
theorem C4_hours (st en : String) (s e : ℕ)
    (hs : parseTime st = some s) (he : parseTime en = some e) :
    (s ≤ e → calcHours st en = (e : ℚ) / 60 - (s : ℚ) / 60) ∧
    (e < s → calcHours st en = ((e : ℚ) + 1440) / 60 - (s : ℚ) / 60) :=
  ⟨fun hle => calcHours_le hs he hle, fun hlt => calcHours_wrap hs he hlt⟩

theorem C4_hours_witness :
    parseTime "22:00" = some 1320 ∧ parseTime "06:00" = some 360 ∧
    calcHours "22:00" "06:00" = ((360 : ℚ) + 1440) / 60 - (1320 : ℚ) / 60 :=
  ⟨rfl, rfl, (C4_hours "22:00" "06:00" 1320 360 rfl rfl).2 (by decide)⟩

/-- C5: `profit(start, end, revenue, tips)` equals
`hours(start,end) * 220 + tips + revenue * 0.015`, with comma decimal
separators normalized and absent/empty revenue/tips treated as 0; on the
spec's scenario (`22:00`–`06:00`, revenue 1000, tips 500) the result is
exactly 2275. -/
theorem C5_profit :
    (∀ st en rev tips : String, ∀ r t : ℚ, moneyVal rev = some r → moneyVal tips = some t →
      calcProfit st en rev tips = calcHours st en * 220 + t + r * (3 / 200)) ∧
    (∀ st en : String, calcProfit st en "" "" = calcHours st en * 220) ∧
    moneyVal "1000,5" = moneyVal "1000.5" ∧
    calcProfit "22:00" "06:00" "1000" "500" = 2275 := by
  refine ⟨?_, ?_, rfl, ?_⟩
  · intro st en rev tips r t hr ht
    rw [calcProfit_of_parse hr ht]
    rfl
  · intro st en
    have h0 : moneyVal "" = some 0 := rfl
    rw [calcProfit_of_parse h0 h0]
    unfold shiftProfit
    ring
  · have hr : moneyVal "1000" = some 1000 := by decide
    have ht : moneyVal "500" = some 500 := by decide
    rw [calcProfit_of_parse hr ht]
    have h1 : parseTime "22:00" = some 1320 := rfl
    have h2 : parseTime "06:00" = some 360 := rfl
    rw [calcHours_wrap h1 h2 (by decide)]
    unfold shiftProfit
    norm_num

theorem C5_profit_witness :
    moneyVal "1000" = some 1000 ∧ moneyVal "500" = some 500 ∧
    calcProfit "10:00" "18:00" "1000" "500"
      = calcHours "10:00" "18:00" * 220 + 500 + 1000 * (3 / 200) :=
  ⟨by decide, by decide,
   C5_profit.1 "10:00" "18:00" "1000" "500" 1000 500 (by decide) (by decide)⟩

/-- C8: with the parsed revenue and tips values, the profit is
`shiftProfit hours r t`, which is linear in tips (slope 1), linear in
revenue (slope 3/200 = 0.015), and monotonically non-decreasing in the
hours value. -/
theorem C8_linearity :
    (∀ st en rev tips : String, ∀ r t : ℚ, moneyVal rev = some r → moneyVal tips = some t →
      calcProfit st en rev tips = shiftProfit (calcHours st en) r t) ∧
    (∀ h r t d : ℚ, shiftProfit h r (t + d) = shiftProfit h r t + d) ∧
    (∀ h r t d : ℚ, shiftProfit h (r + d) t = shiftProfit h r t + (3 / 200) * d) ∧
    (∀ h h' r t : ℚ, h ≤ h' → shiftProfit h r t ≤ shiftProfit h' r t) := by
  refine ⟨fun st en rev tips r t hr ht => calcProfit_of_parse hr ht, ?_, ?_, ?_⟩
  · intro h r t d
    unfold shiftProfit
    ring
  · intro h r t d
    unfold shiftProfit
    ring
  · intro h h' r t hle
    unfold shiftProfit
    have hm : h * 220 ≤ h' * 220 := by
      have := mul_le_mul_of_nonneg_right hle (by norm_num : (0 : ℚ) ≤ 220)
      linarith
    linarith

theorem C8_linearity_witness :
    moneyVal "1000" = some 1000 ∧ moneyVal "500" = some 500 ∧
    calcProfit "22:00" "06:00" "1000" "500" = shiftProfit (calcHours "22:00" "06:00") 1000 500 ∧
    (1 : ℚ) ≤ 2 ∧ shiftProfit 1 100 50 ≤ shiftProfit 2 100 50 :=
  ⟨by decide, by decide,
   C8_linearity.1 "22:00" "06:00" "1000" "500" 1000 500 (by decide) (by decide),
   by norm_num, C8_linearity.2.2.2 1 2 100 50 (by norm_num)⟩

/-- C9: the encouragement tier is chosen exactly by the thresholds of
`process_profit_date`: tier 1 iff `p < 4000`, tier 2 iff
`4000 <= p <= 6000` (both inclusive), tier 3 iff `p > 6000`; the three
conditions partition the rationals, so each profit lands in exactly one
tier. -/
theorem C9_tiers (p : ℚ) :
    (selectTier p = 1 ↔ p < 4000) ∧
    (selectTier p = 2 ↔ 4000 ≤ p ∧ p ≤ 6000) ∧
    (selectTier p = 3 ↔ 6000 < p) := by
  unfold selectTier
  by_cases h1 : p < 4000
  · rw [if_pos h1]
    refine ⟨⟨fun _ => h1, fun _ => rfl⟩, ?_, ?_⟩
    · exact ⟨fun h => absurd h (by norm_num), fun hc => absurd hc.1 (not_le.mpr h1)⟩
    · exact ⟨fun h => absurd h (by norm_num), fun hc => absurd (by linarith : p < 4000) (by linarith)⟩
  · rw [if_neg h1]
    have hge : 4000 ≤ p := not_lt.mp h1
    by_cases h2 : 4000 ≤ p ∧ p ≤ 6000
    · rw [if_pos h2]
      refine ⟨⟨fun h => absurd h (by norm_num), fun hc => absurd hc h1⟩,
        ⟨fun _ => h2, fun _ => rfl⟩,
        ⟨fun h => absurd h (by norm_num), fun hc => absurd hc (not_lt.mpr h2.2)⟩⟩
    · rw [if_neg h2]
      have hgt : 6000 < p := by
        by_contra hc
        exact h2 ⟨hge, not_lt.mp hc⟩
      exact ⟨⟨fun h => absurd h (by norm_num), fun hc => absurd hc h1⟩,
        ⟨fun h => absurd h (by norm_num), fun hc => absurd hc h2⟩,
        ⟨fun _ => hgt, fun _ => rfl⟩⟩

/-- C10: `hours(t, t) = 0` for every valid time, `hours` always lies in
`[0, 24)` (so a 24-hour shift is not representable), and a shift with
equal start and end contributes no hours term to the profit. -/
theorem C10_hours_range :
    (∀ (t : String) (m : ℕ), parseTime t = some m → calcHours t t = 0) ∧
    (∀ st en : String, 0 ≤ calcHours st en ∧ calcHours st en < 24) ∧
    (∀ (t rev tips : String) (m : ℕ), ∀ r tv : ℚ, parseTime t = some m →
      moneyVal rev = some r → moneyVal tips = some tv →
      calcProfit t t rev tips = tv + r * (3 / 200)) := by
  have hself : ∀ (t : String) (m : ℕ), parseTime t = some m → calcHours t t = 0 := by
    intro t m h
    rw [calcHours_of_parse h h, if_neg (lt_irrefl m)]
    simp
  refine ⟨hself, ?_, ?_⟩
  · intro st en
    cases hst : parseTime st with
    | none =>
      simp only [calcHours, hst]
      norm_num
    | some s =>
      cases hen : parseTime en with
      | none =>
        simp only [calcHours, hst, hen]
        norm_num
      | some e =>
        rw [calcHours_of_parse hst hen]
        have hs := parseTime_lt hst
        have he := parseTime_lt hen
        have hlt : (if e < s then e + 1440 else e) - s < 1440 := by
          split_ifs <;> omega
        constructor
        · positivity
        · rw [div_lt_iff₀ (by norm_num : (0 : ℚ) < 60)]
          have : (((if e < s then e + 1440 else e) - s : ℕ) : ℚ) < 1440 := by
            exact_mod_cast hlt
          linarith
  · intro t rev tips m r tv ht hr htv
    rw [calcProfit_of_parse hr htv, hself t m ht]
    unfold shiftProfit
    ring

theorem C10_hours_range_witness :
    parseTime "10:00" = some 600 ∧ calcHours "10:00" "10:00" = 0 ∧
    moneyVal "100" = some 100 ∧ moneyVal "50" = some 50 ∧
    calcProfit "10:00" "10:00" "100" "50" = 50 + 100 * (3 / 200) :=
  ⟨rfl, C10_hours_range.1 "10:00" 600 rfl, by decide, by decide,
   C10_hours_range.2.2 "10:00" "100" "50" 600 100 50 rfl (by decide) (by decide)⟩

/-- C1 counterexample: on the local backend a stored 8-hour shift with
zero revenue and tips yields `get_profit = 0`, while the canonical
hours-based formula gives `8 * 220 = 1760` — so `compute_profit` does not
use the hours-based formula on both backends. -/
theorem C1_counterexample :
    dbGetProfit [⟨"01.03.2024", "10:00", "18:00", 0, 0⟩] "01.03.2024" = some (0 + 0) ∧
    calcProfit "10:00" "18:00" "0" "0" = 1760 ∧ (0 + 0 : ℚ) ≠ 1760 := by
  refine ⟨rfl, ?_, by norm_num⟩
  have h0 : moneyVal "0" = some 0 := by decide
  rw [calcProfit_of_parse h0 h0]
  have h1 : parseTime "10:00" = some 600 := rfl
  have h2 : parseTime "18:00" = some 1080 := rfl
  rw [calcHours_le h1 h2 (by decide)]
  unfold shiftProfit
  norm_num

/-- C1 amended: both backends return "absent" when no record exists for
the date; the remote backend's `get_profit` returns the canonical
hours-based profit of the stored record (empty cells defaulted), but the
local backend's `get_profit` returns `revenue + tips` instead of the
hours-based formula. -/
theorem C1_amended :
    (∀ (s : List DBRow) (d : String) (r : DBRow),
      s.find? (fun x => decide (x.date = d)) = some r →
      dbGetProfit s d = some (r.revenue + r.tips)) ∧
    (∀ (s : List DBRow) (d : String),
      s.find? (fun x => decide (x.date = d)) = none → dbGetProfit s d = none) ∧
    (∀ (ws : List SheetRow) (d : String) (pd : ℕ × ℕ × ℕ) (r : SheetRow),
      parseDate d = some pd → sheetFind ws (formatDate pd) = some r →
      (sheetGetProfit ws d).2 = some (calcProfit (cellOr "00:00" r.startCell)
        (cellOr "00:00" r.endCell) (cellOr "0" r.revenueCell) (cellOr "0" r.tipsCell))) ∧
    (∀ (ws : List SheetRow) (d : String) (pd : ℕ × ℕ × ℕ),
      parseDate d = some pd → sheetFind ws (formatDate pd) = none →
      (sheetGetProfit ws d).2 = none) ∧
    (∀ (ws : List SheetRow) (d : String),
      parseDate d = none → (sheetGetProfit ws d).2 = none) := by
  refine ⟨?_, ?_, ?_, ?_, ?_⟩
  · intro s d r h
    unfold dbGetProfit
    rw [h]
    rfl
  · intro s d h
    unfold dbGetProfit
    rw [h]
    rfl
  · intro ws d pd r hpd hfind
    simp only [sheetGetProfit, hpd, hfind]
  · intro ws d pd hpd hfind
    simp only [sheetGetProfit, hpd, hfind]
  · intro ws d hpd
    simp only [sheetGetProfit, hpd]

theorem C1_amended_witness :
    ([⟨"01.03.2024", "10:00", "18:00", 1000, 500⟩] : List DBRow).find?
        (fun x => decide (x.date = "01.03.2024"))
      = some ⟨"01.03.2024", "10:00", "18:00", 1000, 500⟩ ∧
    dbGetProfit [⟨"01.03.2024", "10:00", "18:00", 1000, 500⟩] "01.03.2024"
      = some ((1000 : ℚ) + 500) ∧
    parseDate "01.03.2024" = some (1, 3, 2024) ∧
    sheetFind [⟨"01.03.2024", "10:00", "18:00", "1000", "500", none, none⟩]
        (formatDate (1, 3, 2024))
      = some ⟨"01.03.2024", "10:00", "18:00", "1000", "500", none, none⟩ ∧
    (sheetGetProfit [⟨"01.03.2024", "10:00", "18:00", "1000", "500", none, none⟩]
        "01.03.2024").2
      = some (calcProfit (cellOr "00:00" "10:00") (cellOr "00:00" "18:00")
          (cellOr "0" "1000") (cellOr "0" "500")) :=
  ⟨rfl,
   C1_amended.1 [⟨"01.03.2024", "10:00", "18:00", 1000, 500⟩] "01.03.2024"
     ⟨"01.03.2024", "10:00", "18:00", 1000, 500⟩ rfl,
   rfl, rfl,
   C1_amended.2.2.1 [⟨"01.03.2024", "10:00", "18:00", "1000", "500", none, none⟩]
     "01.03.2024" (1, 3, 2024)
     ⟨"01.03.2024", "10:00", "18:00", "1000", "500", none, none⟩ rfl rfl⟩

/-- C2 counterexample: on the local backend, re-adding a shift for a date
that already holds revenue 1000 and tips 500 replaces the whole row
(SQLite `INSERT OR REPLACE`), resetting revenue and tips to the column
default 0 — they are not left unchanged. -/
theorem C2_counterexample :
    dbAddShift [⟨"01.03.2024", "10:00", "18:00", 1000, 500⟩] "01.03.2024" "09:00" "17:00"
      = ([⟨"01.03.2024", "09:00", "17:00", 0, 0⟩], true) ∧
    (1000 : ℚ) ≠ 0 ∧ (500 : ℚ) ≠ 0 :=
  ⟨rfl, by norm_num, by norm_num⟩

/-- C2 amended: `upsert_shift` creates a record when the date is absent on
both backends, and on the remote backend an existing row keeps its
revenue/tips cells with only start/end (and the recomputed profit cell)
rewritten; on the local backend, however, the upsert always leaves the
row for the date with revenue and tips reset to the default 0, so
existing revenue/tips values are destroyed rather than preserved. -/
theorem C2_amended :
    (∀ (s : List DBRow) (d st en : String),
      (dbAddShift s d st en).2 = true ∧
      (dbAddShift s d st en).1.find? (fun x => decide (x.date = d)) = some ⟨d, st, en, 0, 0⟩) ∧
    (∀ (ws : List SheetRow) (d st en : String) (pd : ℕ × ℕ × ℕ) (ts te : ℕ) (r : SheetRow),
      parseDate d = some pd → parseTime st = some ts → parseTime en = some te →
      sheetFind ws (formatDate pd) = some r →
      (sheetAddShift ws d st en).2 = true ∧
      sheetFind (sheetAddShift ws d st en).1 (formatDate pd)
        = some ⟨r.date, st, en, r.revenueCell, r.tipsCell, r.hoursCell,
            some (calcProfit st en (cellOr "0" r.revenueCell) (cellOr "0" r.tipsCell))⟩) ∧
    (∀ (ws : List SheetRow) (d st en : String) (pd : ℕ × ℕ × ℕ) (ts te : ℕ),
      parseDate d = some pd → parseTime st = some ts → parseTime en = some te →
      sheetFind ws (formatDate pd) = none →
      (sheetAddShift ws d st en).2 = true ∧
      sheetFind (sheetAddShift ws d st en).1 (formatDate pd)
        = some ⟨formatDate pd, st, en, "", "", some (calcProfit st en "" ""), none⟩) := by
  refine ⟨?_, ?_, ?_⟩
  · intro s d st en
    refine ⟨rfl, ?_⟩
    unfold dbAddShift
    exact find?_append_single (find?_filter_not _ s) (by simp)
  · intro ws d st en pd ts te r hpd hst hen hfind
    simp only [sheetAddShift, hpd, hst, hen, hfind]
    refine ⟨trivial, ?_⟩
    unfold sheetFind at hfind ⊢
    exact find?_updFirst (fun a ha => ha) hfind
  · intro ws d st en pd ts te hpd hst hen hfind
    simp only [sheetAddShift, hpd, hst, hen, hfind]
    refine ⟨trivial, ?_⟩
    unfold sheetFind at hfind ⊢
    exact find?_append_single hfind (by simp)

theorem C2_amended_witness :
    parseDate "01.03.2024" = some (1, 3, 2024) ∧
    parseTime "09:00" = some 540 ∧ parseTime "17:00" = some 1020 ∧
    sheetFind [⟨"01.03.2024", "10:00", "18:00", "1000", "500", none, none⟩]
        (formatDate (1, 3, 2024))
      = some ⟨"01.03.2024", "10:00", "18:00", "1000", "500", none, none⟩ ∧
    (sheetAddShift [⟨"01.03.2024", "10:00", "18:00", "1000", "500", none, none⟩]
        "01.03.2024" "09:00" "17:00").2 = true ∧
    sheetFind (sheetAddShift [⟨"01.03.2024", "10:00", "18:00", "1000", "500", none, none⟩]
        "01.03.2024" "09:00" "17:00").1 (formatDate (1, 3, 2024))
      = some ⟨"01.03.2024", "09:00", "17:00", "1000", "500", none,
          some (calcProfit "09:00" "17:00" (cellOr "0" "1000") (cellOr "0" "500"))⟩ := by
  have h := C2_amended.2.1 [⟨"01.03.2024", "10:00", "18:00", "1000", "500", none, none⟩]
    "01.03.2024" "09:00" "17:00" (1, 3, 2024) 540 1020
    ⟨"01.03.2024", "10:00", "18:00", "1000", "500", none, none⟩ rfl rfl rfl rfl
  exact ⟨rfl, rfl, rfl, rfl, h.1, h.2⟩

/-- C3 counterexample: `"-5"` does not parse as a non-negative decimal,
yet the local backend's `update_value` accepts it (Python `float("-5")`
succeeds), reports success, and stores the negative revenue. -/
theorem C3_counterexample :
    parseFloat "-5" = some (-5 : ℚ) ∧ (-5 : ℚ) < 0 ∧
    dbUpdateValue [⟨"01.03.2024", "10:00", "18:00", 0, 0⟩] "01.03.2024" "выручка" "-5"
      = ([⟨"01.03.2024", "10:00", "18:00", -5, 0⟩], true) := by
  refine ⟨by decide, by norm_num, by decide⟩

/-- C3 amended: on the local backend a revenue/tips value that does not
convert by `float` fails without mutating the table (negative decimals,
however, are accepted and stored), and an update for a date with no
record fails without mutating the table; on the remote backend every
`update_value` call fails without mutating the sheet, because its
field-to-column mapping code is malformed. -/
theorem C3_amended :
    (∀ (s : List DBRow) (d v f : String), (f = "выручка" ∨ f = "чай") →
      parseFloat v = none → dbUpdateValue s d f v = (s, false)) ∧
    (∀ (s : List DBRow) (d f v : String),
      s.any (fun x => decide (x.date = d)) = false → dbUpdateValue s d f v = (s, false)) ∧
    (∀ (ws : List SheetRow) (d f v : String), sheetUpdateValue ws d f v = (ws, false)) := by
  refine ⟨?_, ?_, fun ws d f v => rfl⟩
  · intro s d v f hf hv
    rcases hf with rfl | rfl
    · simp only [dbUpdateValue, show fieldMapping "выручка" = some DBField.revenue from rfl, hv]
    · simp only [dbUpdateValue, show fieldMapping "чай" = some DBField.tips from rfl, hv]
  · intro s d f v hany
    simp only [dbUpdateValue]
    cases hfm : fieldMapping f with
    | none => rfl
    | some fl =>
      cases fl with
      | start_time => simp [hany]
      | end_time => simp [hany]
      | revenue =>
        cases hpv : parseFloat v with
        | none => rfl
        | some q => simp [hpv, hany]
      | tips =>
        cases hpv : parseFloat v with
        | none => rfl
        | some q => simp [hpv, hany]

theorem C3_amended_witness :
    parseFloat "abc" = none ∧
    dbUpdateValue [⟨"01.03.2024", "10:00", "18:00", 0, 0⟩] "01.03.2024" "выручка" "abc"
      = ([⟨"01.03.2024", "10:00", "18:00", 0, 0⟩], false) ∧
    ([] : List DBRow).any (fun x => decide (x.date = "05.03.2024")) = false ∧
    dbUpdateValue [] "05.03.2024" "чай" "5" = ([], false) ∧
    sheetUpdateValue [] "01.03.2024" "выручка" "5" = ([], false) :=
  ⟨rfl, C3_amended.1 _ "01.03.2024" "abc" "выручка" (Or.inl rfl) rfl,
   rfl, C3_amended.2.1 [] "05.03.2024" "чай" "5" rfl,
   C3_amended.2.2 [] "01.03.2024" "выручка" "5"⟩

/-- C6: the period query compares and orders the stored `DD.MM.YYYY` date
strings bytewise (SQL `BETWEEN`/`ORDER BY` on a TEXT column), not as
calendar dates.  Concretely: the shift dated `01.03.2024` lies inside the
calendar range `28.02.2024`–`02.03.2024` yet the query returns nothing,
and over the year range the shifts come back with `02.03.2024` (March 2)
before `15.01.2024` (January 15) although January precedes March. -/
theorem C6_bug :
    dbGetShiftsInPeriod [⟨"01.03.2024", "10:00", "18:00", 0, 0⟩]
      "28.02.2024" "02.03.2024" = [] ∧
    calDateLe "28.02.2024" "01.03.2024" = true ∧
    calDateLe "01.03.2024" "02.03.2024" = true ∧
    (dbGetShiftsInPeriod
        [⟨"15.01.2024", "10:00", "18:00", 0, 0⟩, ⟨"02.03.2024", "11:00", "19:00", 0, 0⟩]
        "01.01.2024" "31.12.2024").map (fun r => r.date)
      = ["02.03.2024", "15.01.2024"] ∧
    calDateLe "15.01.2024" "02.03.2024" = true := by
  refine ⟨by decide, by decide, by decide, by decide, by decide⟩

/-- C7: `get_statistics` returns `None` exactly when no row matches the
query's date range, and otherwise reports the matching-row count, the
sums of revenue and tips, their arithmetic means, the simplified
aggregate `total_profit = total_revenue + total_tips`, and `avg_profit`
equal to the mean `total_profit / shift_count`. -/
theorem C7_stats (s : List DBRow) (a b : String) :
    (dbGetStatistics s a b = none ↔ dbMatch s a b = []) ∧
    (∀ st : ShiftStats, dbGetStatistics s a b = some st →
      st.shift_count = (dbMatch s a b).length ∧
      st.total_revenue = sumRev (dbMatch s a b) ∧
      st.total_tips = sumTips (dbMatch s a b) ∧
      st.total_profit = st.total_revenue + st.total_tips ∧
      st.avg_revenue = st.total_revenue / st.shift_count ∧
      st.avg_tips = st.total_tips / st.shift_count ∧
      st.avg_profit = st.total_profit / st.shift_count) := by
  constructor
  · by_cases h : (dbMatch s a b).length = 0
    · unfold dbGetStatistics
      rw [if_pos h]
      exact ⟨fun _ => List.length_eq_zero.mp h, fun _ => rfl⟩
    · unfold dbGetStatistics
      rw [if_neg h]
      constructor
      · intro hc
        exact absurd hc (by simp)
      · intro hE
        exact absurd (by rw [hE]; rfl) h
  · intro st hst
    by_cases h : (dbMatch s a b).length = 0
    · unfold dbGetStatistics at hst
      rw [if_pos h] at hst
      exact absurd hst (by simp)
    · unfold dbGetStatistics at hst
      rw [if_neg h] at hst
      have hrec := Option.some.inj hst
      subst hrec
      exact ⟨rfl, rfl, rfl, rfl, rfl, rfl, div_add_div_same _ _ _⟩

theorem C7_stats_witness :
    dbGetStatistics
        [⟨"05.03.2024", "10:00", "18:00", 1000, 100⟩, ⟨"10.03.2024", "11:00", "19:00", 2000, 200⟩]
        "01.03.2024" "31.03.2024"
      = some ⟨2, 3000, 300, 3300, 1500, 150, 1650⟩ ∧
    (3300 : ℚ) = 3000 + 300 ∧ (1650 : ℚ) = 3300 / ((2 : ℕ) : ℚ) := by
  have hm : dbMatch
      [⟨"05.03.2024", "10:00", "18:00", 1000, 100⟩, ⟨"10.03.2024", "11:00", "19:00", 2000, 200⟩]
      "01.03.2024" "31.03.2024"
      = [⟨"05.03.2024", "10:00", "18:00", 1000, 100⟩, ⟨"10.03.2024", "11:00", "19:00", 2000, 200⟩] := rfl
  have hst : dbGetStatistics
      [⟨"05.03.2024", "10:00", "18:00", 1000, 100⟩, ⟨"10.03.2024", "11:00", "19:00", 2000, 200⟩]
      "01.03.2024" "31.03.2024"
      = some ⟨2, 3000, 300, 3300, 1500, 150, 1650⟩ := by
    unfold dbGetStatistics
    rw [hm]
    norm_num [sumRev, sumTips, ShiftStats.mk.injEq]
  have h := (C7_stats
    [⟨"05.03.2024", "10:00", "18:00", 1000, 100⟩, ⟨"10.03.2024", "11:00", "19:00", 2000, 200⟩]
    "01.03.2024" "31.03.2024").2 ⟨2, 3000, 300, 3300, 1500, 150, 1650⟩ hst
  exact ⟨hst, h.2.2.2.1, h.2.2.2.2.2.2⟩

end TanukiBot
